import Mathlib

/-
Verification of the Signal KPI pipeline (src/kpis.py, src/transforms.py,
src/main.py) through a shallow embedding in Lean 4.

Modelling conventions, chosen once and used throughout:

- A pandas DataFrame is a Lean list of structure values, one structure per
  row, one field per column.  Row order of the list is the row order of the
  frame.
- A float cell that can hold the IEEE special values produced by an
  unguarded division is modelled by PVal: a rational number, NaN, or a
  signed infinity.  Comparisons against NaN are false, as in IEEE
  arithmetic.  Cells that are always finite stay plain rationals.
- Calendar dates are modelled by their day number (an integer).  ISO-8601
  date strings of the years 1000 to 9999 compare lexicographically exactly
  as their day numbers compare, so sorting and maximum-taking on the
  integer model agree with the string behaviour of the code.
- Python str.lower and str.strip are modelled character-wise on the
  underlying character list (pyLower, pyStripStr); str.join is modelled by
  joinSep.  All three agree with Python on the ASCII data the pipeline
  handles.
- A column that a builder writes only under a condition (the from_date and
  to_date tags) is an Option String field: none means the column is absent
  from the table, some s means the column is present and holds s.
- Python exceptions are modelled by Except PyErr: PyErr.shape is the
  DataShapeError of transforms.py, PyErr.value a plain ValueError raised by
  kpis.py, PyErr.external an exception raised inside a library (pandas date
  parsing, IndexError from iloc, AttributeError from strip).  Error message
  texts keep the fixed words of the source; the repr of interpolated
  runtime values is simplified.
- The two external parsing services of pandas that the code calls on
  strings, pd.to_datetime and pd.to_numeric, are abstract parameters
  (structure Ext), since their parsing grammars are library internals.
-/

/-- Numeric cell value of a pandas float column: a rational, NaN, or a
signed infinity. -/
inductive PVal where
  | num (q : ℚ)
  | nan
  | posInf
  | negInf
deriving DecidableEq

/-- Comparison v >= t of a cell against a finite threshold; false on NaN,
as in IEEE arithmetic. -/
def PVal.ge (v : PVal) (t : ℚ) : Bool :=
  match v with
  | PVal.num q => decide (t ≤ q)
  | PVal.nan => false
  | PVal.posInf => true
  | PVal.negInf => false

/-- Comparison v <= t of a cell against a finite threshold; false on NaN. -/
def PVal.le (v : PVal) (t : ℚ) : Bool :=
  match v with
  | PVal.num q => decide (q ≤ t)
  | PVal.nan => false
  | PVal.posInf => false
  | PVal.negInf => true

/-- IEEE division of two finite floats: 0/0 is NaN, x/0 for nonzero x is a
signed infinity, otherwise the exact quotient. -/
def PVal.div (a b : ℚ) : PVal :=
  if b = 0 then
    if a = 0 then PVal.nan else if 0 < a then PVal.posInf else PVal.negInf
  else PVal.num (a / b)

/-- Python str.lower, character by character (ASCII model). -/
def pyLower (s : String) : String := String.mk (s.data.map Char.toLower)

/-- Python str.strip with no arguments: remove leading and trailing
whitespace (ASCII model). -/
def pyStripStr (s : String) : String :=
  String.mk (((s.data.dropWhile Char.isWhitespace).reverse.dropWhile
    Char.isWhitespace).reverse)

/-- Python sep.join over a list of strings. -/
def joinSep (sep : String) (xs : List String) : String :=
  String.mk (List.intersperse sep.data (xs.map String.data)).flatten

/-- Python truthiness of an optional string: None and the empty string are
falsy.  This is the test of the two statements if from_date and if to_date
in every KPI builder. -/
def pyTruthy (v : Option String) : Bool :=
  match v with
  | none => false
  | some s => !(s == "")

/-- Value of the from_date or to_date column of a KPI table: the configured
string when it is truthy, otherwise the column is absent. -/
def tagValue (v : Option String) : Option String :=
  if pyTruthy v then v else none

/-- Mean of a list of rationals, as computed by pandas mean over a nonempty
window. -/
def listMean (xs : List ℚ) : ℚ := xs.sum / (xs.length : ℚ)

/-- Trailing window of width at most 4 ending at position i, the window of
rolling(window=4, min_periods=1) in build_weekly_volume_pressure. -/
def rollingWindow (xs : List ℚ) (i : ℕ) : List ℚ :=
  (xs.take (i + 1)).drop (i + 1 - 4)

/-- Canonical row of the WeeklyVolumes dataset produced by
parse_weekly_volumes: a week (day number of its start date) and the inbound
full container count. -/
structure WeeklyRow where
  week_start_date : ℤ
  inbound_full_containers : ℚ
deriving DecidableEq

/-- Ordering of weekly rows by week_start_date, used by sort_values. -/
def weeklyRowLeKey (a b : WeeklyRow) : Prop :=
  a.week_start_date ≤ b.week_start_date

instance : DecidableRel weeklyRowLeKey :=
  fun a b => inferInstanceAs (Decidable (a.week_start_date ≤ b.week_start_date))

instance : IsTotal WeeklyRow weeklyRowLeKey :=
  ⟨fun a b => Int.le_total a.week_start_date b.week_start_date⟩

instance : IsTrans WeeklyRow weeklyRowLeKey :=
  ⟨fun _ _ _ h1 h2 => le_trans h1 h2⟩

instance : IsRefl WeeklyRow weeklyRowLeKey := ⟨fun a => le_refl a.week_start_date⟩

/-- Row of the kpi_weekly_volume_pressure table. -/
structure WeeklyKpiRow where
  week_start_date : ℤ
  inbound_full_containers : ℚ
  rolling_4w_avg_teu : ℚ
  volume_pressure_index : PVal
  flag : String
  extraction_ts_utc : ℕ
  from_date : Option String
  to_date : Option String
deriving DecidableEq

/-- Flag of one weekly row, as assigned by the three sequential statements
of build_weekly_volume_pressure: default NORMAL, overwrite with HIGH where
the index is at least high_threshold, then overwrite with LOW where the
index is at most low_threshold. -/
def weeklyFlag (vpi : PVal) (high_threshold low_threshold : ℚ) : String :=
  let flag0 := "NORMAL"
  let flag1 := if PVal.ge vpi high_threshold then "HIGH" else flag0
  if PVal.le vpi low_threshold then "LOW" else flag1

/-- Row at position i of the weekly KPI table built from the sorted input;
the vectorized column assignments of the source become one row
construction per index. -/
def weeklyKpiAt (sorted : List WeeklyRow) (extraction_ts_utc : ℕ)
    (from_date to_date : Option String) (high_threshold low_threshold : ℚ)
    (i : ℕ) : WeeklyKpiRow :=
  let inbound := sorted.map (fun r => r.inbound_full_containers)
  let row := sorted.getD i ⟨0, 0⟩
  let avg := listMean (rollingWindow inbound i)
  let vpi := PVal.div row.inbound_full_containers avg
  { week_start_date := row.week_start_date
    inbound_full_containers := row.inbound_full_containers
    rolling_4w_avg_teu := avg
    volume_pressure_index := vpi
    flag := weeklyFlag vpi high_threshold low_threshold
    extraction_ts_utc := extraction_ts_utc
    from_date := tagValue from_date
    to_date := tagValue to_date }

/-- Embedding of build_weekly_volume_pressure of src/kpis.py: sort by
week_start_date ascending, add the trailing rolling mean (window 4, minimum
1 period), divide inbound by the rolling mean, assign flags by the
sequential NORMAL/HIGH/LOW overwrites, stamp the run tags. -/
def build_weekly_volume_pressure (weekly_df : List WeeklyRow)
    (extraction_ts_utc : ℕ) (from_date to_date : Option String)
    (high_threshold low_threshold : ℚ) : List WeeklyKpiRow :=
  let sorted := List.insertionSort weeklyRowLeKey weekly_df
  (List.range sorted.length).map
    (weeklyKpiAt sorted extraction_ts_utc from_date to_date high_threshold
      low_threshold)

/-- Canonical row of the TerminalContainers dataset produced by
parse_terminal_containers. -/
structure TerminalRow where
  load_type : String
  bucket : String
  containers : ℚ
deriving DecidableEq

/-- Row of the kpi_terminal_congestion table. -/
structure TerminalKpiRow where
  load_type : String
  total_containers : ℚ
  congested_containers : ℚ
  congested_pct : ℚ
  flag : String
  extraction_ts_utc : ℕ
  from_date : Option String
  to_date : Option String
deriving DecidableEq

/-- Group keys of a pandas groupby over a string column: the distinct
values, in ascending order. -/
def groupKeys (keys : List String) : List String :=
  List.insertionSort (fun a b => a ≤ b) keys.dedup

/-- Flag of one terminal-congestion group, as assigned by the two
sequential if statements of build_terminal_congestion. -/
def terminalGroupFlag (load_type : String) (congested_pct : ℚ)
    (loaded_high empty_high : ℚ) : String :=
  let flag0 := "NORMAL"
  let flag1 :=
    if pyLower load_type = "loaded" ∧ loaded_high ≤ congested_pct then "HIGH"
    else flag0
  if pyLower load_type = "empty" ∧ empty_high ≤ congested_pct then "HIGH"
  else flag1

/-- Group row of build_terminal_congestion for one load_type value. -/
def terminalGroupRow (terminal_df : List TerminalRow) (extraction_ts_utc : ℕ)
    (from_date to_date : Option String) (congested_buckets : List String)
    (loaded_high empty_high : ℚ) (load_type : String) : TerminalKpiRow :=
  let subset := terminal_df.filter (fun r => r.load_type == load_type)
  let total := (subset.map (fun r => r.containers)).sum
  let congested :=
    ((subset.filter (fun r => congested_buckets.contains r.bucket)).map
      (fun r => r.containers)).sum
  let congested_pct := if total = 0 then 0 else congested / total
  { load_type := load_type
    total_containers := total
    congested_containers := congested
    congested_pct := congested_pct
    flag := terminalGroupFlag load_type congested_pct loaded_high empty_high
    extraction_ts_utc := extraction_ts_utc
    from_date := tagValue from_date
    to_date := tagValue to_date }

/-- Python exceptions that the embedded code can raise. -/
inductive PyErr where
  | shape (msg : String)
  | value (msg : String)
  | external (msg : String)
deriving DecidableEq

/-- Embedding of build_terminal_congestion of src/kpis.py: group by
load_type, total the containers and the containers in congested buckets,
take the percentage (0.0 on an all-zero group), flag HIGH against the
loaded or the empty threshold according to the lowercased load_type, raise
ValueError when grouping yields no rows. -/
def build_terminal_congestion (terminal_df : List TerminalRow)
    (extraction_ts_utc : ℕ) (from_date to_date : Option String)
    (congested_buckets : List String) (loaded_high empty_high : ℚ) :
    Except PyErr (List TerminalKpiRow) :=
  let rows := (groupKeys (terminal_df.map (fun r => r.load_type))).map
    (terminalGroupRow terminal_df extraction_ts_utc from_date to_date
      congested_buckets loaded_high empty_high)
  if rows.isEmpty then
    Except.error (PyErr.value "Terminal congestion KPI produced no rows.")
  else Except.ok rows

/-- Canonical row of the OutgateMetrics dataset produced by
parse_outgate_metrics. -/
structure OutgateRow where
  status : String
  bucket : String
  containers : ℚ
deriving DecidableEq

/-- Row of the kpi_outgate_stress_by_status table. -/
structure OutgateKpiRow where
  status : String
  total_containers : ℚ
  slow_containers : ℚ
  slow_pct : ℚ
  flag : String
  extraction_ts_utc : ℕ
  from_date : Option String
  to_date : Option String
deriving DecidableEq

/-- Group row of build_outgate_stress_by_status for one status value. -/
def outgateGroupRow (outgate_df : List OutgateRow) (extraction_ts_utc : ℕ)
    (from_date to_date : Option String) (slow_buckets : List String)
    (slow_high : ℚ) (status : String) : OutgateKpiRow :=
  let subset := outgate_df.filter (fun r => r.status == status)
  let total := (subset.map (fun r => r.containers)).sum
  let slow :=
    ((subset.filter (fun r => slow_buckets.contains r.bucket)).map
      (fun r => r.containers)).sum
  let slow_pct := if total = 0 then 0 else slow / total
  { status := status
    total_containers := total
    slow_containers := slow
    slow_pct := slow_pct
    flag := if slow_high ≤ slow_pct then "HIGH" else "NORMAL"
    extraction_ts_utc := extraction_ts_utc
    from_date := tagValue from_date
    to_date := tagValue to_date }

/-- Embedding of build_outgate_stress_by_status of src/kpis.py: group by
status, total the containers and the containers in slow buckets, take the
percentage (0.0 on an all-zero group), flag HIGH against the single slow
threshold, raise ValueError when grouping yields no rows. -/
def build_outgate_stress_by_status (outgate_df : List OutgateRow)
    (extraction_ts_utc : ℕ) (from_date to_date : Option String)
    (slow_buckets : List String) (slow_high : ℚ) :
    Except PyErr (List OutgateKpiRow) :=
  let rows := (groupKeys (outgate_df.map (fun r => r.status))).map
    (outgateGroupRow outgate_df extraction_ts_utc from_date to_date
      slow_buckets slow_high)
  if rows.isEmpty then
    Except.error (PyErr.value "Outgate stress KPI produced no rows.")
  else Except.ok rows

/-- JSON value, the shape of an upstream payload. -/
inductive Json where
  | null
  | bool (b : Bool)
  | num (q : ℚ)
  | str (s : String)
  | arr (xs : List Json)
  | obj (kvs : List (String × Json))

/-- Canonical row of the BerthData dataset produced by parse_berth_data;
the optional terminal cell keeps the raw JSON value the payload supplied, as
the source stores it without a type check. -/
structure BerthRow where
  vessel : String
  time_at_berth_hours : ℚ
  terminal : Option Json

/-- Row of the kpi_berth_snapshot table. -/
structure BerthKpiRow where
  record_type : String
  vessel : Option String
  terminal : Option Json
  time_at_berth_hours : Option ℚ
  avg_time_at_berth_hours : PVal
  flag : String
  extraction_ts_utc : ℕ
  from_date : Option String
  to_date : Option String

/-- Ordering of berth rows by descending time_at_berth_hours, used by
sort_values(ascending=False). -/
def berthGeKey (a b : BerthRow) : Prop :=
  b.time_at_berth_hours ≤ a.time_at_berth_hours

instance : DecidableRel berthGeKey :=
  fun a b => inferInstanceAs (Decidable (b.time_at_berth_hours ≤ a.time_at_berth_hours))

instance : IsTotal BerthRow berthGeKey :=
  ⟨fun a b => (le_total b.time_at_berth_hours a.time_at_berth_hours)⟩

instance : IsTrans BerthRow berthGeKey :=
  ⟨fun _ _ _ h1 h2 => le_trans h2 h1⟩

/-- Embedding of build_berth_snapshot of src/kpis.py: mean of
time_at_berth_hours over all rows (NaN on an empty frame, as pandas mean),
flag HIGH when the mean reaches the threshold, one summary row followed by
the top_n vessels by descending hours, every row stamped with the same
average and flag and the run tags. -/
def build_berth_snapshot (berth_df : List BerthRow) (extraction_ts_utc : ℕ)
    (from_date to_date : Option String) (berth_high_hours : ℚ)
    (top_n : ℕ) : List BerthKpiRow :=
  let avg_time : PVal :=
    if berth_df.isEmpty then PVal.nan
    else PVal.num (listMean (berth_df.map (fun r => r.time_at_berth_hours)))
  let flag := if PVal.ge avg_time berth_high_hours then "HIGH" else "NORMAL"
  let summary : BerthKpiRow :=
    { record_type := "summary"
      vessel := none
      terminal := none
      time_at_berth_hours := none
      avg_time_at_berth_hours := avg_time
      flag := flag
      extraction_ts_utc := extraction_ts_utc
      from_date := tagValue from_date
      to_date := tagValue to_date }
  let vessels := ((List.insertionSort berthGeKey berth_df).take top_n).map
    (fun r =>
      { record_type := "vessel"
        vessel := some r.vessel
        terminal := r.terminal
        time_at_berth_hours := some r.time_at_berth_hours
        avg_time_at_berth_hours := avg_time
        flag := flag
        extraction_ts_utc := extraction_ts_utc
        from_date := tagValue from_date
        to_date := tagValue to_date })
  summary :: vessels

/-- Row of the kpi_health_summary table.  build_health_summary never writes
the date-range columns, so from_date and to_date are always absent. -/
structure HealthRow where
  volume_pressure_flag : String
  terminal_congestion_loaded_flag : String
  terminal_congestion_empty_flag : String
  outgate_stress_high_statuses : String
  berth_flag : String
  extraction_ts_utc : ℕ
  from_date : Option String
  to_date : Option String

/-- Embedding of the helper of src/kpis.py that returns the flag of the
first terminal-congestion row whose lowercased load_type equals the given
value, or UNKNOWN when no row matches. -/
def flag_for_load_type (df : List TerminalKpiRow) (load_type : String) : String :=
  match df.filter (fun r => pyLower r.load_type == load_type) with
  | [] => "UNKNOWN"
  | r :: _ => r.flag

/-- Ordering of weekly KPI rows by week_start_date, used by the sort in
build_health_summary. -/
def weeklyKpiLeKey (a b : WeeklyKpiRow) : Prop :=
  a.week_start_date ≤ b.week_start_date

instance : DecidableRel weeklyKpiLeKey :=
  fun a b => inferInstanceAs (Decidable (a.week_start_date ≤ b.week_start_date))

instance : IsTotal WeeklyKpiRow weeklyKpiLeKey :=
  ⟨fun a b => Int.le_total a.week_start_date b.week_start_date⟩

instance : IsTrans WeeklyKpiRow weeklyKpiLeKey :=
  ⟨fun _ _ _ h1 h2 => le_trans h1 h2⟩

instance : IsRefl WeeklyKpiRow weeklyKpiLeKey :=
  ⟨fun a => le_refl a.week_start_date⟩

/-- Embedding of build_health_summary of src/kpis.py: the flag of the last
volume row after sorting by week_start_date (iloc with index -1, an
IndexError on an empty table), the loaded and empty terminal flags, the
comma-joined outgate statuses flagged HIGH or the literal NONE, and the
flag of the first berth row whose record_type is summary (iloc with index
0, an IndexError when there is none).  Produces exactly one row. -/
def build_health_summary (volume_df : List WeeklyKpiRow)
    (terminal_df : List TerminalKpiRow) (outgate_df : List OutgateKpiRow)
    (berth_df : List BerthKpiRow) (extraction_ts_utc : ℕ) :
    Except PyErr (List HealthRow) :=
  match (List.insertionSort weeklyKpiLeKey volume_df).getLast? with
  | none =>
    Except.error (PyErr.external "IndexError: single positional indexer is out-of-bounds")
  | some latest_volume =>
    match (berth_df.filter (fun r => r.record_type == "summary")).head? with
    | none =>
      Except.error (PyErr.external "IndexError: single positional indexer is out-of-bounds")
    | some berth_summary =>
      let high_statuses :=
        (outgate_df.filter (fun r => r.flag == "HIGH")).map (fun r => r.status)
      Except.ok
        [{ volume_pressure_flag := latest_volume.flag
           terminal_congestion_loaded_flag := flag_for_load_type terminal_df "loaded"
           terminal_congestion_empty_flag := flag_for_load_type terminal_df "empty"
           outgate_stress_high_statuses :=
             if high_statuses.isEmpty then "NONE" else joinSep ", " high_statuses
           berth_flag := berth_summary.flag
           extraction_ts_utc := extraction_ts_utc
           from_date := none
           to_date := none }]

/-- Key lookup in a JSON object, the membership test and subscript of a
Python dict (keys are unique, first match). -/
def dictGet : List (String × Json) → String → Option Json
  | [], _ => none
  | (k, v) :: rest, key => if k = key then some v else dictGet rest key

/-- First key of the ordered key list that is present in the object with a
list value, as probed by the loop of extract_list. -/
def firstListKey (kvs : List (String × Json)) : List String → Option (List Json)
  | [] => none
  | key :: rest =>
    match dictGet kvs key with
    | some (Json.arr xs) => some xs
    | _ => firstListKey kvs rest

/-- Message of the ShapeError raised by extract_list; the Python repr
brackets and quotes around the key list are simplified away. -/
def extractListMsg (keys : List String) : String :=
  String.mk ("Expected list payload with keys ".data ++
    (List.intersperse ", ".data (keys.map String.data)).flatten)

/-- Embedding of the extract_list helper of src/transforms.py: a list
payload is used directly; a mapping payload is probed with the ordered key
list and the first key present whose value is a list wins; anything else
raises DataShapeError. -/
def extract_list (payload : Json) (keys : List String) :
    Except PyErr (List Json) :=
  match payload with
  | Json.arr xs => Except.ok xs
  | Json.obj kvs =>
    match firstListKey kvs keys with
    | some xs => Except.ok xs
    | none => Except.error (PyErr.shape (extractListMsg keys))
  | _ => Except.error (PyErr.shape (extractListMsg keys))

/-- First alias of the ordered alias list present in the item with a
non-null value, as probed by the loop of get_required_key. -/
def firstPresentKey (item : List (String × Json)) : List String → Option Json
  | [] => none
  | key :: rest =>
    match dictGet item key with
    | some Json.null => firstPresentKey item rest
    | some v => some v
    | none => firstPresentKey item rest

/-- Message of the ShapeError raised by get_required_key; it lists every
attempted alias.  The Python repr brackets and quotes around the alias list
and the repr of the item are simplified away. -/
def requiredKeysMsg (keys : List String) : String :=
  String.mk ("Missing required keys ".data ++
    (List.intersperse ", ".data (keys.map String.data)).flatten ++
    " in item".data)

/-- Embedding of the get_required_key helper of src/transforms.py: return
the first present, non-null alias value, or raise DataShapeError naming all
attempted aliases.  A non-dict item raises TypeError from the Python
membership test. -/
def get_required_key (item : Json) (keys : List String) : Except PyErr Json :=
  match item with
  | Json.obj kvs =>
    match firstPresentKey kvs keys with
    | some v => Except.ok v
    | none => Except.error (PyErr.shape (requiredKeysMsg keys))
  | _ => Except.error (PyErr.external "TypeError: argument is not iterable")

/-- Python datetime value: the day number of its date part and the
time-of-day in seconds. -/
structure PyDatetime where
  day : ℤ
  secondsOfDay : ℚ
deriving DecidableEq

/-- Runtime value reaching the parse_date helper, classified the way its
isinstance chain classifies it.  A Python bool is an int, so a boolean
input takes the numeric branch and is represented as intVal 0 or 1. -/
inductive DateInput where
  | dt (d : PyDatetime)
  | intVal (n : ℤ)
  | floatVal (q : ℚ)
  | strVal (s : String)
  | other
deriving DecidableEq

/-- Embedding of the parse_date helper of src/transforms.py: a datetime
keeps only its date part, a number is an epoch-seconds value converted to
the day it falls in (utcfromtimestamp), a string goes through the external
pandas date parser whose failure propagates as the library error rather
than DataShapeError, and a value of any other type raises DataShapeError.
The pdToDatetime parameter is the abstract pd.to_datetime string grammar. -/
def parse_date (pdToDatetime : String → Option PyDatetime) :
    DateInput → Except PyErr ℤ
  | DateInput.dt d => Except.ok d.day
  | DateInput.intVal n => Except.ok (Int.fdiv n 86400)
  | DateInput.floatVal q => Except.ok ⌊q / 86400⌋
  | DateInput.strVal s =>
    match pdToDatetime s with
    | some d => Except.ok d.day
    | none =>
      Except.error (PyErr.external "DateParseError: Unknown datetime string format")
  | DateInput.other => Except.error (PyErr.shape "Unable to parse date value")

/-- Classification of a JSON value as a parse_date input. -/
def DateInput.ofJson : Json → DateInput
  | Json.num q => DateInput.floatVal q
  | Json.str s => DateInput.strVal s
  | Json.bool b => DateInput.intVal (if b then 1 else 0)
  | _ => DateInput.other

/-- Python value.strip() on a field value: trims a string, raises
AttributeError on any other type. -/
def pyStrip : Json → Except PyErr String
  | Json.str s => Except.ok (pyStripStr s)
  | _ => Except.error (PyErr.external "AttributeError: object has no attribute strip")

/-- Cell result of pd.to_numeric(errors=coerce) on one raw value: numbers
pass through, booleans are 0 or 1, strings go through the abstract numeric
grammar, everything else becomes NaN (modelled as none). -/
def toNumeric (strToNum : String → Option ℚ) : Json → Option ℚ
  | Json.num q => some q
  | Json.bool b => some (if b then 1 else 0)
  | Json.str s => strToNum s
  | _ => none

/-- Abstract external string parsers of pandas used by the normalizers:
pd.to_datetime on a date string and pd.to_numeric on a numeric string,
returning none where the library would fail or coerce to NaN. -/
structure PandasExt where
  pdToDatetime : String → Option PyDatetime
  strToNum : String → Option ℚ

/-- Left-to-right processing of the item loop of a normalizer: the first
item whose processing raises stops the loop with that error, items after it
are never examined. -/
def processItems {α : Type} (f : Json → Except PyErr α) :
    List Json → Except PyErr (List α)
  | [] => Except.ok []
  | item :: rest =>
    match f item with
    | Except.error e => Except.error e
    | Except.ok a =>
      match processItems f rest with
      | Except.error e => Except.error e
      | Except.ok as => Except.ok (a :: as)

/-- Date-field aliases of parse_weekly_volumes. -/
def weeklyDateKeys : List String :=
  ["weekStartDate", "week_start_date", "week", "startDate", "date"]

/-- Inbound-field aliases of parse_weekly_volumes. -/
def weeklyInboundKeys : List String :=
  ["inboundFullContainers", "inbound_full_containers", "inboundFullTeu",
   "inbound_full_teu", "inboundFullTEU"]

/-- Load-type aliases of parse_terminal_containers. -/
def terminalLoadKeys : List String := ["loadType", "load_type", "status"]

/-- Bucket aliases shared by parse_terminal_containers and
parse_outgate_metrics. -/
def bucketKeys : List String :=
  ["bucket", "agingBucket", "ageBucket", "aging_bucket"]

/-- Container-count aliases shared by parse_terminal_containers and
parse_outgate_metrics. -/
def containersKeys : List String :=
  ["containers", "containerCount", "value", "count"]

/-- Status aliases of parse_outgate_metrics. -/
def outgateStatusKeys : List String := ["status", "containerStatus", "loadType"]

/-- Vessel aliases of parse_berth_data. -/
def vesselKeys : List String := ["vessel", "vesselName", "name"]

/-- Hours aliases of parse_berth_data. -/
def hoursKeys : List String :=
  ["timeAtBerthHours", "hoursAtBerth", "time_at_berth_hours", "hours"]

/-- Loop body of parse_weekly_volumes for one item: resolve the date field
through its aliases and parse it, then resolve the inbound field, keeping
its raw value for the later numeric coercion. -/
def weeklyItem (ext : PandasExt) (item : Json) : Except PyErr (ℤ × Json) :=
  match get_required_key item weeklyDateKeys with
  | Except.error e => Except.error e
  | Except.ok v =>
    match parse_date ext.pdToDatetime (DateInput.ofJson v) with
    | Except.error e => Except.error e
    | Except.ok week =>
      match get_required_key item weeklyInboundKeys with
      | Except.error e => Except.error e
      | Except.ok inbound => Except.ok (week, inbound)

/-- Embedding of parse_weekly_volumes of src/transforms.py. -/
def parse_weekly_volumes (ext : PandasExt) (payload : Json) :
    Except PyErr (List WeeklyRow) :=
  match extract_list payload ["weeklyVolumesComparison", "data", "items"] with
  | Except.error e => Except.error e
  | Except.ok items =>
    match processItems (weeklyItem ext) items with
    | Except.error e => Except.error e
    | Except.ok rows =>
      if rows.isEmpty then
        Except.error (PyErr.shape "Weekly volume payload returned no rows.")
      else
        let coerced := rows.map (fun r => (r.1, toNumeric ext.strToNum r.2))
        if coerced.any (fun r => r.2.isNone) then
          Except.error
            (PyErr.shape "Weekly volume payload contained non-numeric inbound values.")
        else
          Except.ok (coerced.map (fun r =>
            { week_start_date := r.1, inbound_full_containers := r.2.getD 0 }))

/-- Loop body of parse_terminal_containers for one item: load_type and
bucket are required, stripped strings; containers keeps its raw value for
the later numeric coercion. -/
def terminalItem (item : Json) : Except PyErr (String × String × Json) :=
  match get_required_key item terminalLoadKeys with
  | Except.error e => Except.error e
  | Except.ok lv =>
    match pyStrip lv with
    | Except.error e => Except.error e
    | Except.ok load_type =>
      match get_required_key item bucketKeys with
      | Except.error e => Except.error e
      | Except.ok bv =>
        match pyStrip bv with
        | Except.error e => Except.error e
        | Except.ok bucket =>
          match get_required_key item containersKeys with
          | Except.error e => Except.error e
          | Except.ok containers => Except.ok (load_type, bucket, containers)

/-- Embedding of parse_terminal_containers of src/transforms.py. -/
def parse_terminal_containers (ext : PandasExt) (payload : Json) :
    Except PyErr (List TerminalRow) :=
  match extract_list payload ["ContainersAtTerminalData", "data", "items"] with
  | Except.error e => Except.error e
  | Except.ok items =>
    match processItems terminalItem items with
    | Except.error e => Except.error e
    | Except.ok rows =>
      if rows.isEmpty then
        Except.error (PyErr.shape "Terminal container payload returned no rows.")
      else
        let coerced := rows.map (fun r =>
          (r.1, r.2.1, toNumeric ext.strToNum r.2.2))
        if coerced.any (fun r => r.2.2.isNone) then
          Except.error
            (PyErr.shape "Terminal container payload contained non-numeric values.")
        else
          Except.ok (coerced.map (fun r =>
            { load_type := r.1, bucket := r.2.1, containers := r.2.2.getD 0 }))

/-- Loop body of parse_outgate_metrics for one item. -/
def outgateItem (item : Json) : Except PyErr (String × String × Json) :=
  match get_required_key item outgateStatusKeys with
  | Except.error e => Except.error e
  | Except.ok sv =>
    match pyStrip sv with
    | Except.error e => Except.error e
    | Except.ok status =>
      match get_required_key item bucketKeys with
      | Except.error e => Except.error e
      | Except.ok bv =>
        match pyStrip bv with
        | Except.error e => Except.error e
        | Except.ok bucket =>
          match get_required_key item containersKeys with
          | Except.error e => Except.error e
          | Except.ok containers => Except.ok (status, bucket, containers)

/-- Embedding of parse_outgate_metrics of src/transforms.py. -/
def parse_outgate_metrics (ext : PandasExt) (payload : Json) :
    Except PyErr (List OutgateRow) :=
  match extract_list payload ["FetchOutgatedContainerMetricsData", "data", "items"] with
  | Except.error e => Except.error e
  | Except.ok items =>
    match processItems outgateItem items with
    | Except.error e => Except.error e
    | Except.ok rows =>
      if rows.isEmpty then
        Except.error (PyErr.shape "Outgate metrics payload returned no rows.")
      else
        let coerced := rows.map (fun r =>
          (r.1, r.2.1, toNumeric ext.strToNum r.2.2))
        if coerced.any (fun r => r.2.2.isNone) then
          Except.error
            (PyErr.shape "Outgate metrics payload contained non-numeric values.")
        else
          Except.ok (coerced.map (fun r =>
            { status := r.1, bucket := r.2.1, containers := r.2.2.getD 0 }))

/-- Python dict.get on an item, returning None for a missing key. -/
def itemGet (item : Json) (key : String) : Option Json :=
  match item with
  | Json.obj kvs => dictGet kvs key
  | _ => none

/-- Python truthiness of an optional JSON value, the test of the or chain
item.get(terminal) or item.get(terminalName). -/
def jsonTruthy : Option Json → Bool
  | none => false
  | some Json.null => false
  | some (Json.bool b) => b
  | some (Json.num q) => !(decide (q = 0))
  | some (Json.str s) => !(s == "")
  | some (Json.arr xs) => !xs.isEmpty
  | some (Json.obj kvs) => !kvs.isEmpty

/-- Loop body of parse_berth_data for one item: vessel is required and
stripped, hours keeps its raw value for the later numeric coercion, and the
optional terminal is the first truthy of the terminal and terminalName
lookups. -/
def berthItem (item : Json) : Except PyErr (String × Json × Option Json) :=
  match get_required_key item vesselKeys with
  | Except.error e => Except.error e
  | Except.ok vv =>
    match pyStrip vv with
    | Except.error e => Except.error e
    | Except.ok vessel =>
      match get_required_key item hoursKeys with
      | Except.error e => Except.error e
      | Except.ok hours =>
        let terminal :=
          if jsonTruthy (itemGet item "terminal") then itemGet item "terminal"
          else itemGet item "terminalName"
        Except.ok (vessel, hours, terminal)

/-- Embedding of parse_berth_data of src/transforms.py. -/
def parse_berth_data (ext : PandasExt) (payload : Json) :
    Except PyErr (List BerthRow) :=
  match extract_list payload
      ["FetchQuickviewDashboardBerthData", "vessels", "data", "items"] with
  | Except.error e => Except.error e
  | Except.ok items =>
    match processItems berthItem items with
    | Except.error e => Except.error e
    | Except.ok rows =>
      if rows.isEmpty then
        Except.error (PyErr.shape "Berth payload returned no rows.")
      else
        let coerced := rows.map (fun r =>
          (r.1, toNumeric ext.strToNum r.2.1, r.2.2))
        if coerced.any (fun r => r.2.1.isNone) then
          Except.error
            (PyErr.shape "Berth payload contained non-numeric time values.")
        else
          Except.ok (coerced.map (fun r =>
            { vessel := r.1, time_at_berth_hours := r.2.1.getD 0,
              terminal := r.2.2 }))

/-- Configuration slice of Settings that run_pipeline passes to the KPI
builders: the optional reporting date range and the thresholds. -/
structure PipelineSettings where
  from_date : Option String
  to_date : Option String
  congested_buckets : List String
  slow_outgate_buckets : List String
  volume_pressure_high : ℚ
  volume_pressure_low : ℚ
  terminal_loaded_high : ℚ
  terminal_empty_high : ℚ
  outgate_slow_high : ℚ
  berth_high_hours : ℚ
  berth_top_n : ℕ

/-- The five tables one pipeline run persists. -/
structure PipelineTables where
  kpi_weekly_volume_pressure : List WeeklyKpiRow
  kpi_terminal_congestion : List TerminalKpiRow
  kpi_outgate_stress_by_status : List OutgateKpiRow
  kpi_berth_snapshot : List BerthKpiRow
  kpi_health_summary : List HealthRow

/-- Embedding of the transform-and-derive part of run_pipeline of
src/main.py: the four fetched payloads are normalized, the four KPI tables
are built with the single extraction timestamp and the configured date
range, and the health summary is built from the four tables.  The HTTP
fetches and the database writes around this slice are external
collaborators. -/
def run_pipeline (ext : PandasExt) (s : PipelineSettings)
    (extraction_ts_utc : ℕ)
    (weekly_payload terminal_payload outgate_payload berth_payload : Json) :
    Except PyErr PipelineTables :=
  match parse_weekly_volumes ext weekly_payload with
  | Except.error e => Except.error e
  | Except.ok weekly_df =>
    match parse_terminal_containers ext terminal_payload with
    | Except.error e => Except.error e
    | Except.ok terminal_df =>
      match parse_outgate_metrics ext outgate_payload with
      | Except.error e => Except.error e
      | Except.ok outgate_df =>
        match parse_berth_data ext berth_payload with
        | Except.error e => Except.error e
        | Except.ok berth_df =>
          let kpi_weekly := build_weekly_volume_pressure weekly_df
            extraction_ts_utc s.from_date s.to_date
            s.volume_pressure_high s.volume_pressure_low
          match build_terminal_congestion terminal_df extraction_ts_utc
              s.from_date s.to_date s.congested_buckets
              s.terminal_loaded_high s.terminal_empty_high with
          | Except.error e => Except.error e
          | Except.ok kpi_terminal =>
            match build_outgate_stress_by_status outgate_df extraction_ts_utc
                s.from_date s.to_date s.slow_outgate_buckets
                s.outgate_slow_high with
            | Except.error e => Except.error e
            | Except.ok kpi_outgate =>
              let kpi_berth := build_berth_snapshot berth_df extraction_ts_utc
                s.from_date s.to_date s.berth_high_hours s.berth_top_n
              match build_health_summary kpi_weekly kpi_terminal kpi_outgate
                  kpi_berth extraction_ts_utc with
              | Except.error e => Except.error e
              | Except.ok kpi_health =>
                Except.ok
                  { kpi_weekly_volume_pressure := kpi_weekly
                    kpi_terminal_congestion := kpi_terminal
                    kpi_outgate_stress_by_status := kpi_outgate
                    kpi_berth_snapshot := kpi_berth
                    kpi_health_summary := kpi_health }

/-- True exactly on a result that failed with a DataShapeError. -/
def isShapeErr {α : Type} : Except PyErr α → Bool
  | Except.error (PyErr.shape _) => true
  | _ => false

lemma length_build_weekly (weekly_df : List WeeklyRow) (ts : ℕ)
    (fd td : Option String) (hi lo : ℚ) :
    (build_weekly_volume_pressure weekly_df ts fd td hi lo).length
      = weekly_df.length := by
  simp [build_weekly_volume_pressure, List.length_insertionSort]

lemma getElem_build_weekly (weekly_df : List WeeklyRow) (ts : ℕ)
    (fd td : Option String) (hi lo : ℚ) (i : ℕ)
    (h : i < (build_weekly_volume_pressure weekly_df ts fd td hi lo).length) :
    (build_weekly_volume_pressure weekly_df ts fd td hi lo)[i]
      = weeklyKpiAt (List.insertionSort weeklyRowLeKey weekly_df) ts fd td hi lo i := by
  simp [build_weekly_volume_pressure]

lemma map_build_weekly {β : Type} (weekly_df : List WeeklyRow) (ts : ℕ)
    (fd td : Option String) (hi lo : ℚ) (g : WeeklyKpiRow → β) (f : WeeklyRow → β)
    (hg : ∀ sorted i, g (weeklyKpiAt sorted ts fd td hi lo i) = f (sorted.getD i ⟨0, 0⟩)) :
    (build_weekly_volume_pressure weekly_df ts fd td hi lo).map g
      = (List.insertionSort weeklyRowLeKey weekly_df).map f := by
  apply List.ext_getElem
  · simp [length_build_weekly, List.length_insertionSort]
  · intro n h1 h2
    have hn : n < (List.insertionSort weeklyRowLeKey weekly_df).length := by
      simpa using h2
    rw [List.getElem_map, List.getElem_map, getElem_build_weekly, hg,
      List.getD_eq_getElem _ _ hn]

lemma listMean_of_all_zero (xs : List ℚ) (h : ∀ q ∈ xs, q = 0) :
    listMean xs = 0 := by
  simp [listMean, List.sum_eq_zero h]

lemma self_mem_rollingWindow (xs : List ℚ) (i : ℕ) (h : i < xs.length) :
    xs[i] ∈ rollingWindow xs i := by
  have hlen : (xs.take (i + 1)).length = i + 1 := by
    simp [List.length_take]
    omega
  have hk : i + 1 - 4 ≤ i := by omega
  have hj : i - (i + 1 - 4) < ((xs.take (i + 1)).drop (i + 1 - 4)).length := by
    simp [List.length_drop, hlen]
    omega
  have hval : ((xs.take (i + 1)).drop (i + 1 - 4))[i - (i + 1 - 4)] = xs[i] := by
    rw [List.getElem_drop]
    have hidx : i + 1 - 4 + (i - (i + 1 - 4)) = i := by omega
    simp only [hidx]
    exact List.getElem_take _
  rw [rollingWindow, ← hval]
  exact List.getElem_mem hj

/-- C1.  In build_weekly_volume_pressure the flag of every output row is
the result of the sequential two-pass overwrite (default NORMAL, then HIGH
where the index reaches the high threshold, then LOW where the index is at
most the low threshold), and consequently a row whose index satisfies both
threshold conditions ends with flag LOW. -/
theorem C1_weekly_flag_two_pass (weekly_df : List WeeklyRow) (ts : ℕ)
    (fd td : Option String) (hi lo : ℚ) (row : WeeklyKpiRow)
    (hrow : row ∈ build_weekly_volume_pressure weekly_df ts fd td hi lo) :
    row.flag = (if PVal.le row.volume_pressure_index lo then "LOW"
      else if PVal.ge row.volume_pressure_index hi then "HIGH" else "NORMAL")
    ∧ (PVal.ge row.volume_pressure_index hi = true →
       PVal.le row.volume_pressure_index lo = true → row.flag = "LOW") := by
  simp only [build_weekly_volume_pressure, List.mem_map, List.mem_range] at hrow
  obtain ⟨i, hlt, rfl⟩ := hrow
  refine ⟨rfl, fun h1 h2 => ?_⟩
  have hfl : (weeklyKpiAt (List.insertionSort weeklyRowLeKey weekly_df) ts fd td hi lo i).flag
      = weeklyFlag ((weeklyKpiAt (List.insertionSort weeklyRowLeKey weekly_df) ts
          fd td hi lo i).volume_pressure_index) hi lo := rfl
  rw [hfl]
  simp [weeklyFlag, h2]

/-- Concrete weekly KPI row used to witness C1: with both thresholds set to
1, the single row has index exactly 1, satisfies both conditions, and ends
with flag LOW. -/
def w1row : WeeklyKpiRow :=
  { week_start_date := 0
    inbound_full_containers := 10
    rolling_4w_avg_teu := 10
    volume_pressure_index := PVal.num 1
    flag := "LOW"
    extraction_ts_utc := 3
    from_date := none
    to_date := none }

lemma w1build : build_weekly_volume_pressure [⟨0, 10⟩] 3 none none 1 1 = [w1row] := by
  have h1 : List.insertionSort weeklyRowLeKey [(⟨0, 10⟩ : WeeklyRow)] = [⟨0, 10⟩] := by
    simp [List.insertionSort]
  have h2 : listMean [(10 : ℚ)] = 10 := by
    simp [listMean]
  simp [build_weekly_volume_pressure, h1, weeklyKpiAt, rollingWindow, h2,
    PVal.div, weeklyFlag, PVal.le, PVal.ge, tagValue, pyTruthy, w1row,
    List.range_succ]

theorem C1_witness :
    PVal.ge w1row.volume_pressure_index 1 = true
    ∧ PVal.le w1row.volume_pressure_index 1 = true
    ∧ w1row.flag = "LOW" := by
  have hge : PVal.ge w1row.volume_pressure_index 1 = true := by
    simp [w1row, PVal.ge]
  have hle : PVal.le w1row.volume_pressure_index 1 = true := by
    simp [w1row, PVal.le]
  have h := C1_weekly_flag_two_pass [⟨0, 10⟩] 3 none none 1 1 w1row
    (by rw [w1build]; exact List.mem_singleton.mpr rfl)
  exact ⟨hge, hle, h.2 hge hle⟩

lemma rollingWindow_zero (xs : List ℚ) : rollingWindow xs 0 = xs.take 1 := by
  simp [rollingWindow]

lemma listMean_take_one (xs : List ℚ) (h : 0 < xs.length) :
    listMean (xs.take 1) = xs[0] := by
  cases xs with
  | nil => simp at h
  | cons a t => simp [listMean]

/-- C3.  build_weekly_volume_pressure sorts the rows by week_start_date
ascending (the output weeks are sorted and the output rows are a
permutation of the input rows), computes rolling_4w_avg_teu as the trailing
mean over the current row and up to 3 prior rows, and in particular the
first chronological row has rolling average equal to its own
inbound_full_containers. -/
theorem C3_weekly_sorted_rolling (weekly_df : List WeeklyRow) (ts : ℕ)
    (fd td : Option String) (hi lo : ℚ) (out : List WeeklyKpiRow)
    (hout : out = build_weekly_volume_pressure weekly_df ts fd td hi lo) :
    out.length = weekly_df.length
    ∧ List.Sorted (fun a b => a ≤ b) (out.map (fun r => r.week_start_date))
    ∧ (out.map (fun r => (r.week_start_date, r.inbound_full_containers))).Perm
        (weekly_df.map (fun r => (r.week_start_date, r.inbound_full_containers)))
    ∧ (∀ i, ∀ h : i < out.length,
        (out.get ⟨i, h⟩).rolling_4w_avg_teu
          = listMean (rollingWindow
              (out.map (fun r => r.inbound_full_containers)) i))
    ∧ ∀ h0 : 0 < out.length,
        (out.get ⟨0, h0⟩).rolling_4w_avg_teu
          = (out.get ⟨0, h0⟩).inbound_full_containers := by
  subst hout
  have hweek := map_build_weekly weekly_df ts fd td hi lo
    (fun r => r.week_start_date) (fun r => r.week_start_date)
    (fun sorted i => rfl)
  have hinb := map_build_weekly weekly_df ts fd td hi lo
    (fun r => r.inbound_full_containers) (fun r => r.inbound_full_containers)
    (fun sorted i => rfl)
  have hpair := map_build_weekly weekly_df ts fd td hi lo
    (fun r => (r.week_start_date, r.inbound_full_containers))
    (fun r => (r.week_start_date, r.inbound_full_containers))
    (fun sorted i => rfl)
  have hroll : ∀ i, ∀ h : i <
      (build_weekly_volume_pressure weekly_df ts fd td hi lo).length,
      ((build_weekly_volume_pressure weekly_df ts fd td hi lo).get
          ⟨i, h⟩).rolling_4w_avg_teu
        = listMean (rollingWindow
            ((build_weekly_volume_pressure weekly_df ts fd td hi lo).map
              (fun r => r.inbound_full_containers)) i) := by
    intro i h
    rw [hinb, List.get_eq_getElem, getElem_build_weekly]
    rfl
  refine ⟨length_build_weekly weekly_df ts fd td hi lo, ?_, ?_, hroll, ?_⟩
  · rw [hweek]
    exact List.Pairwise.map _ (fun a b hab => hab)
      (List.sorted_insertionSort weeklyRowLeKey weekly_df)
  · rw [hpair]
    exact (List.perm_insertionSort weeklyRowLeKey weekly_df).map _
  · intro h0
    have h0x : 0 < ((build_weekly_volume_pressure weekly_df ts fd td hi lo).map
        (fun r => r.inbound_full_containers)).length := by
      simpa using h0
    rw [hroll 0 h0, rollingWindow_zero, listMean_take_one _ h0x,
      List.getElem_map, List.get_eq_getElem]

lemma w3pos : 0 < (build_weekly_volume_pressure [⟨0, 7⟩] 3 none none 2 1).length := by
  rw [length_build_weekly]
  simp

theorem C3_witness :
    ((build_weekly_volume_pressure [⟨0, 7⟩] 3 none none 2 1).get
        ⟨0, w3pos⟩).rolling_4w_avg_teu
      = ((build_weekly_volume_pressure [⟨0, 7⟩] 3 none none 2 1).get
          ⟨0, w3pos⟩).inbound_full_containers :=
  (C3_weekly_sorted_rolling [⟨0, 7⟩] 3 none none 2 1 _ rfl).2.2.2.2 w3pos

/-- C10.  The division producing volume_pressure_index is unguarded: on a
row whose trailing window holds only zero inbound values the rolling
average is 0, the index is the indeterminate 0/0, i.e. NaN, both threshold
comparisons on it are false, and the flag stays NORMAL; the builder still
returns a full table (one output row per input row). -/
theorem C10_zero_window_nan (weekly_df : List WeeklyRow) (ts : ℕ)
    (fd td : Option String) (hi lo : ℚ) (out : List WeeklyKpiRow)
    (hout : out = build_weekly_volume_pressure weekly_df ts fd td hi lo)
    (i : ℕ) (h : i < out.length)
    (hz : ∀ q ∈ rollingWindow
        (out.map (fun r => r.inbound_full_containers)) i, q = 0) :
    out.length = weekly_df.length
    ∧ (out.get ⟨i, h⟩).rolling_4w_avg_teu = 0
    ∧ (out.get ⟨i, h⟩).volume_pressure_index = PVal.nan
    ∧ (out.get ⟨i, h⟩).flag = "NORMAL" := by
  subst hout
  have hinb := map_build_weekly weekly_df ts fd td hi lo
    (fun r => r.inbound_full_containers) (fun r => r.inbound_full_containers)
    (fun sorted i => rfl)
  rw [hinb] at hz
  have hlen : i < (List.insertionSort weeklyRowLeKey weekly_df).length := by
    have h1 := length_build_weekly weekly_df ts fd td hi lo
    have h2 := List.length_insertionSort weeklyRowLeKey weekly_df
    omega
  have hxs : i < ((List.insertionSort weeklyRowLeKey weekly_df).map
      (fun r => r.inbound_full_containers)).length := by
    simpa using hlen
  have hzero : ((List.insertionSort weeklyRowLeKey weekly_df).map
      (fun r => r.inbound_full_containers))[i] = 0 :=
    hz _ (self_mem_rollingWindow _ i hxs)
  have havg : listMean (rollingWindow
      ((List.insertionSort weeklyRowLeKey weekly_df).map
        (fun r => r.inbound_full_containers)) i) = 0 :=
    listMean_of_all_zero _ hz
  have hnum : ((List.insertionSort weeklyRowLeKey weekly_df).getD i
      ⟨0, 0⟩).inbound_full_containers = 0 := by
    rw [List.getD_eq_getElem _ _ hlen]
    simpa using hzero
  have hvpi : (weeklyKpiAt (List.insertionSort weeklyRowLeKey weekly_df)
      ts fd td hi lo i).volume_pressure_index = PVal.nan := by
    have hdef : (weeklyKpiAt (List.insertionSort weeklyRowLeKey weekly_df)
        ts fd td hi lo i).volume_pressure_index
        = PVal.div ((List.insertionSort weeklyRowLeKey weekly_df).getD i
            ⟨0, 0⟩).inbound_full_containers
          (listMean (rollingWindow
            ((List.insertionSort weeklyRowLeKey weekly_df).map
              (fun r => r.inbound_full_containers)) i)) := rfl
    rw [hdef, hnum, havg]
    simp [PVal.div]
  rw [List.get_eq_getElem, getElem_build_weekly]
  refine ⟨length_build_weekly weekly_df ts fd td hi lo, havg, hvpi, ?_⟩
  have hfl : (weeklyKpiAt (List.insertionSort weeklyRowLeKey weekly_df)
      ts fd td hi lo i).flag
      = weeklyFlag ((weeklyKpiAt (List.insertionSort weeklyRowLeKey weekly_df)
          ts fd td hi lo i).volume_pressure_index) hi lo := rfl
  rw [hfl, hvpi]
  simp [weeklyFlag, PVal.le, PVal.ge]

/-- Concrete weekly KPI row used to witness C10: a single all-zero week. -/
def w10row : WeeklyKpiRow :=
  { week_start_date := 0
    inbound_full_containers := 0
    rolling_4w_avg_teu := 0
    volume_pressure_index := PVal.nan
    flag := "NORMAL"
    extraction_ts_utc := 5
    from_date := none
    to_date := none }

lemma w10build :
    build_weekly_volume_pressure [⟨0, 0⟩] 5 none none 2 1 = [w10row] := by
  have h1 : List.insertionSort weeklyRowLeKey [(⟨0, 0⟩ : WeeklyRow)] = [⟨0, 0⟩] := by
    simp [List.insertionSort]
  have h2 : listMean [(0 : ℚ)] = 0 := by
    simp [listMean]
  simp [build_weekly_volume_pressure, h1, weeklyKpiAt, rollingWindow, h2,
    PVal.div, weeklyFlag, PVal.le, PVal.ge, tagValue, pyTruthy, w10row,
    List.range_succ]

lemma w10pos : 0 < (build_weekly_volume_pressure [⟨0, 0⟩] 5 none none 2 1).length := by
  rw [length_build_weekly]
  simp

theorem C10_witness :
    ((build_weekly_volume_pressure [⟨0, 0⟩] 5 none none 2 1).get
        ⟨0, w10pos⟩).volume_pressure_index = PVal.nan
    ∧ ((build_weekly_volume_pressure [⟨0, 0⟩] 5 none none 2 1).get
        ⟨0, w10pos⟩).flag = "NORMAL" := by
  have h := C10_zero_window_nan [⟨0, 0⟩] 5 none none 2 1 _ rfl 0 w10pos
    (by rw [w10build]; simp [w10row, rollingWindow])
  exact ⟨h.2.2.1, h.2.2.2⟩

lemma mem_terminal_ok {terminal_df : List TerminalRow} {ts : ℕ}
    {fd td : Option String} {cb : List String} {lh eh : ℚ}
    {tbl : List TerminalKpiRow} {row : TerminalKpiRow}
    (hok : build_terminal_congestion terminal_df ts fd td cb lh eh
      = Except.ok tbl) (hrow : row ∈ tbl) :
    ∃ lt, row = terminalGroupRow terminal_df ts fd td cb lh eh lt := by
  have hok2 : (if (List.map (terminalGroupRow terminal_df ts fd td cb lh eh)
        (groupKeys (List.map (fun r => r.load_type) terminal_df))).isEmpty = true
      then Except.error (PyErr.value "Terminal congestion KPI produced no rows.")
      else Except.ok (List.map (terminalGroupRow terminal_df ts fd td cb lh eh)
        (groupKeys (List.map (fun r => r.load_type) terminal_df))))
      = Except.ok tbl := hok
  split at hok2
  · cases hok2
  · cases hok2
    obtain ⟨lt, hlt, hr⟩ := List.mem_map.mp hrow
    exact ⟨lt, hr.symm⟩

lemma mem_outgate_ok {outgate_df : List OutgateRow} {ts : ℕ}
    {fd td : Option String} {sb : List String} {sh : ℚ}
    {tbl : List OutgateKpiRow} {row : OutgateKpiRow}
    (hok : build_outgate_stress_by_status outgate_df ts fd td sb sh
      = Except.ok tbl) (hrow : row ∈ tbl) :
    ∃ st, row = outgateGroupRow outgate_df ts fd td sb sh st := by
  have hok2 : (if (List.map (outgateGroupRow outgate_df ts fd td sb sh)
        (groupKeys (List.map (fun r => r.status) outgate_df))).isEmpty = true
      then Except.error (PyErr.value "Outgate stress KPI produced no rows.")
      else Except.ok (List.map (outgateGroupRow outgate_df ts fd td sb sh)
        (groupKeys (List.map (fun r => r.status) outgate_df))))
      = Except.ok tbl := hok
  split at hok2
  · cases hok2
  · cases hok2
    obtain ⟨st, hst, hr⟩ := List.mem_map.mp hrow
    exact ⟨st, hr.symm⟩

/-- C6.  In build_terminal_congestion a group is tested against loaded_high
exactly when its lowercased load_type is loaded and against empty_high
exactly when it is empty; a group with any other load_type value is never
flagged HIGH, whatever its congested percentage. -/
theorem C6_terminal_load_type_thresholds (terminal_df : List TerminalRow)
    (ts : ℕ) (fd td : Option String) (cb : List String) (lh eh : ℚ)
    (tbl : List TerminalKpiRow) (row : TerminalKpiRow)
    (hok : build_terminal_congestion terminal_df ts fd td cb lh eh
      = Except.ok tbl) (hrow : row ∈ tbl) :
    (pyLower row.load_type ≠ "loaded" → pyLower row.load_type ≠ "empty" →
      row.flag = "NORMAL")
    ∧ (pyLower row.load_type = "loaded" →
      (row.flag = "HIGH" ↔ lh ≤ row.congested_pct))
    ∧ (pyLower row.load_type = "empty" →
      (row.flag = "HIGH" ↔ eh ≤ row.congested_pct)) := by
  obtain ⟨lt, rfl⟩ := mem_terminal_ok hok hrow
  have hlt : (terminalGroupRow terminal_df ts fd td cb lh eh lt).load_type = lt := rfl
  have hfl : (terminalGroupRow terminal_df ts fd td cb lh eh lt).flag
      = terminalGroupFlag lt
          ((terminalGroupRow terminal_df ts fd td cb lh eh lt).congested_pct)
          lh eh := rfl
  rw [hlt, hfl]
  generalize (terminalGroupRow terminal_df ts fd td cb lh eh lt).congested_pct = p
  refine ⟨fun h1 h2 => ?_, fun h1 => ?_, fun h1 => ?_⟩
  · simp [terminalGroupFlag, h1, h2]
  · have hne : pyLower lt ≠ "empty" := by
      rw [h1]
      decide
    by_cases hp : lh ≤ p <;> simp [terminalGroupFlag, h1, hne, hp]
  · have hne : pyLower lt ≠ "loaded" := by
      rw [h1]
      decide
    by_cases hp : eh ≤ p <;> simp [terminalGroupFlag, h1, hne, hp]

/-- Concrete terminal-congestion row used to witness C6: a load_type that
is neither loaded nor empty stays NORMAL even with the thresholds at 0 and
a congested percentage of 1. -/
def w6row : TerminalKpiRow :=
  { load_type := "Reefer"
    total_containers := 10
    congested_containers := 10
    congested_pct := 1
    flag := "NORMAL"
    extraction_ts_utc := 2
    from_date := none
    to_date := none }

lemma w6build :
    build_terminal_congestion [⟨"Reefer", "9-12 Days", 10⟩] 2 none none
      ["9-12 Days"] 0 0 = Except.ok [w6row] := by
  have hg : groupKeys ["Reefer"] = ["Reefer"] := by
    decide
  simp [build_terminal_congestion, hg, terminalGroupRow, terminalGroupFlag,
    tagValue, pyTruthy, w6row,
    show pyLower "Reefer" ≠ "loaded" from by decide,
    show pyLower "Reefer" ≠ "empty" from by decide]

theorem C6_witness : w6row.flag = "NORMAL" ∧ pyLower w6row.load_type ≠ "loaded"
    ∧ pyLower w6row.load_type ≠ "empty" ∧ (0 : ℚ) ≤ w6row.congested_pct := by
  have h := C6_terminal_load_type_thresholds [⟨"Reefer", "9-12 Days", 10⟩] 2
    none none ["9-12 Days"] 0 0 [w6row] w6row w6build
    (List.mem_singleton.mpr rfl)
  refine ⟨h.1 (by decide) (by decide), by decide, by decide, ?_⟩
  simp [w6row]

/-- Concrete terminal-congestion row refuting C7 as stated: with
loaded_high configured as 0, the all-zero loaded group has total 0 and
percentage 0.0 yet is flagged HIGH, because 0.0 reaches the threshold. -/
def c7row : TerminalKpiRow :=
  { load_type := "loaded"
    total_containers := 0
    congested_containers := 0
    congested_pct := 0
    flag := "HIGH"
    extraction_ts_utc := 0
    from_date := none
    to_date := none }

/-- C7 counterexample.  A group with total container count 0 gets
percentage 0.0, but its flag is HIGH, not NORMAL, when the matching HIGH
threshold is configured as 0 (or any non-positive value), since the flag
test is a non-strict comparison against the threshold. -/
theorem C7_counterexample :
    build_terminal_congestion [⟨"loaded", "1-4 Days", 0⟩] 0 none none [] 0 1
      = Except.ok [c7row]
    ∧ c7row.total_containers = 0 ∧ c7row.congested_pct = 0
    ∧ c7row.flag ≠ "NORMAL" := by
  have hg : groupKeys ["loaded"] = ["loaded"] := by
    decide
  refine ⟨?_, rfl, rfl, by decide⟩
  simp [build_terminal_congestion, hg, terminalGroupRow, terminalGroupFlag,
    tagValue, pyTruthy, c7row,
    show pyLower "loaded" = "loaded" from by decide,
    show pyLower "loaded" ≠ "empty" from by decide]

/-- C7 amended.  When every applicable HIGH threshold is positive (as all
the defaults are), a terminal-congestion group or an outgate-stress group
with total container count 0 gets percentage 0.0 and flag NORMAL; the
guard on the total means no division is ever attempted on such a group. -/
theorem C7_zero_total_normal_amended (terminal_df : List TerminalRow)
    (outgate_df : List OutgateRow) (ts : ℕ) (fd td : Option String)
    (cb sb : List String) (lh eh sh : ℚ)
    (hlh : 0 < lh) (heh : 0 < eh) (hsh : 0 < sh)
    (tblT : List TerminalKpiRow) (tblO : List OutgateKpiRow)
    (hT : build_terminal_congestion terminal_df ts fd td cb lh eh
      = Except.ok tblT)
    (hO : build_outgate_stress_by_status outgate_df ts fd td sb sh
      = Except.ok tblO) :
    (∀ row ∈ tblT, row.total_containers = 0 →
      row.congested_pct = 0 ∧ row.flag = "NORMAL")
    ∧ (∀ row ∈ tblO, row.total_containers = 0 →
      row.slow_pct = 0 ∧ row.flag = "NORMAL") := by
  constructor
  · intro row hrow h0
    obtain ⟨lt, rfl⟩ := mem_terminal_ok hT hrow
    simp only [terminalGroupRow] at h0 ⊢
    rw [if_pos h0]
    simp [terminalGroupFlag, hlh.not_le, heh.not_le]
  · intro row hrow h0
    obtain ⟨st, rfl⟩ := mem_outgate_ok hO hrow
    simp only [outgateGroupRow] at h0 ⊢
    rw [if_pos h0]
    simp [hsh.not_le]

/-- Concrete all-zero terminal group used to witness the amended C7. -/
def c7wrowT : TerminalKpiRow :=
  { load_type := "loaded"
    total_containers := 0
    congested_containers := 0
    congested_pct := 0
    flag := "NORMAL"
    extraction_ts_utc := 0
    from_date := none
    to_date := none }

/-- Concrete all-zero outgate group used to witness the amended C7. -/
def c7wrowO : OutgateKpiRow :=
  { status := "Full"
    total_containers := 0
    slow_containers := 0
    slow_pct := 0
    flag := "NORMAL"
    extraction_ts_utc := 0
    from_date := none
    to_date := none }

lemma c7wbuildT :
    build_terminal_congestion [⟨"loaded", "1-4 Days", 0⟩] 0 none none [] 1 1
      = Except.ok [c7wrowT] := by
  have hg : groupKeys ["loaded"] = ["loaded"] := by
    decide
  simp [build_terminal_congestion, hg, terminalGroupRow, terminalGroupFlag,
    tagValue, pyTruthy, c7wrowT,
    show pyLower "loaded" = "loaded" from by decide,
    show pyLower "loaded" ≠ "empty" from by decide]

lemma c7wbuildO :
    build_outgate_stress_by_status [⟨"Full", "1-4 Days", 0⟩] 0 none none [] 1
      = Except.ok [c7wrowO] := by
  have hg : groupKeys ["Full"] = ["Full"] := by
    decide
  simp [build_outgate_stress_by_status, hg, outgateGroupRow, tagValue,
    pyTruthy, c7wrowO]

theorem C7_witness :
    (c7wrowT.congested_pct = 0 ∧ c7wrowT.flag = "NORMAL")
    ∧ (c7wrowO.slow_pct = 0 ∧ c7wrowO.flag = "NORMAL") := by
  have h := C7_zero_total_normal_amended [⟨"loaded", "1-4 Days", 0⟩]
    [⟨"Full", "1-4 Days", 0⟩] 0 none none [] [] 1 1 1
    (by norm_num) (by norm_num) (by norm_num) [c7wrowT] [c7wrowO]
    c7wbuildT c7wbuildO
  exact ⟨h.1 c7wrowT (List.mem_singleton.mpr rfl) rfl,
    h.2 c7wrowO (List.mem_singleton.mpr rfl) rfl⟩

lemma sorted_rel_getLast {α : Type} {r : α → α → Prop} [IsRefl α r]
    {l : List α} (hs : List.Sorted r l) (hne : l ≠ []) :
    ∀ x ∈ l, r x (l.getLast hne) := by
  intro x hx
  obtain ⟨⟨i, hi⟩, rfl⟩ := List.mem_iff_get.mp hx
  rw [List.getLast_eq_getElem]
  rcases Nat.lt_or_ge i (l.length - 1) with hlt | hge
  · exact hs.rel_get_of_le (by simpa using Nat.le_of_lt hlt)
  · have : i = l.length - 1 := by omega
    subst this
    exact IsRefl.refl _

lemma flag_for_load_type_spec (df : List TerminalKpiRow) (lt : String) :
    ((∀ r ∈ df, pyLower r.load_type ≠ lt) →
      flag_for_load_type df lt = "UNKNOWN")
    ∧ ((∃ r ∈ df, pyLower r.load_type = lt) →
      ∃ r ∈ df, pyLower r.load_type = lt ∧ flag_for_load_type df lt = r.flag) := by
  constructor
  · intro h
    have hf : df.filter (fun r => pyLower r.load_type == lt) = [] :=
      List.filter_eq_nil_iff.mpr (fun a ha => by simp [h a ha])
    simp [flag_for_load_type, hf]
  · intro h
    obtain ⟨r0, hr0, hl0⟩ := h
    cases hf : df.filter (fun r => pyLower r.load_type == lt) with
    | nil =>
      exact absurd (List.filter_eq_nil_iff.mp hf r0 hr0) (by simp [hl0])
    | cons a t =>
      have ha : a ∈ df.filter (fun r => pyLower r.load_type == lt) := by
        rw [hf]
        exact List.mem_cons_self a t
      have hmem := List.mem_filter.mp ha
      refine ⟨a, hmem.1, by simpa using hmem.2, ?_⟩
      simp [flag_for_load_type, hf]

/-- C5.  build_health_summary produces exactly one row holding: the flag of
a row attaining the maximum week_start_date of the volume table, the
case-insensitive loaded and empty flags of the terminal table (UNKNOWN when
no group matches), the statuses flagged HIGH in the outgate table joined
with a comma or the literal NONE when there are none, the flag of a summary
row of the berth table, and the run timestamp. -/
theorem C5_health_summary (volume_df : List WeeklyKpiRow)
    (terminal_df : List TerminalKpiRow) (outgate_df : List OutgateKpiRow)
    (berth_df : List BerthKpiRow) (ts : ℕ)
    (hvol : volume_df ≠ [])
    (hsum : ∃ r ∈ berth_df, r.record_type = "summary") :
    ∃ row, build_health_summary volume_df terminal_df outgate_df berth_df ts
        = Except.ok [row]
      ∧ (∃ r ∈ volume_df,
          (∀ x ∈ volume_df, x.week_start_date ≤ r.week_start_date)
          ∧ row.volume_pressure_flag = r.flag)
      ∧ ((∀ r ∈ terminal_df, pyLower r.load_type ≠ "loaded") →
          row.terminal_congestion_loaded_flag = "UNKNOWN")
      ∧ ((∃ r ∈ terminal_df, pyLower r.load_type = "loaded") →
          ∃ r ∈ terminal_df, pyLower r.load_type = "loaded"
            ∧ row.terminal_congestion_loaded_flag = r.flag)
      ∧ ((∀ r ∈ terminal_df, pyLower r.load_type ≠ "empty") →
          row.terminal_congestion_empty_flag = "UNKNOWN")
      ∧ ((∃ r ∈ terminal_df, pyLower r.load_type = "empty") →
          ∃ r ∈ terminal_df, pyLower r.load_type = "empty"
            ∧ row.terminal_congestion_empty_flag = r.flag)
      ∧ row.outgate_stress_high_statuses =
          (if ((outgate_df.filter (fun r => r.flag == "HIGH")).map
              (fun r => r.status)).isEmpty then "NONE"
           else joinSep ", " ((outgate_df.filter
              (fun r => r.flag == "HIGH")).map (fun r => r.status)))
      ∧ (∃ r ∈ berth_df, r.record_type = "summary" ∧ row.berth_flag = r.flag)
      ∧ row.extraction_ts_utc = ts := by
  have hsvne : List.insertionSort weeklyKpiLeKey volume_df ≠ [] := by
    intro hnil
    have hlen := (List.perm_insertionSort weeklyKpiLeKey volume_df).length_eq
    rw [hnil] at hlen
    exact hvol (List.length_eq_zero.mp hlen.symm)
  have hlast := List.getLast?_eq_getLast
    (List.insertionSort weeklyKpiLeKey volume_df) hsvne
  obtain ⟨bs, hbs, hbsr⟩ := hsum
  have hfb : berth_df.filter (fun r => r.record_type == "summary") ≠ [] := by
    intro h
    exact absurd (List.filter_eq_nil_iff.mp h bs hbs) (by simp [hbsr])
  have hhead := List.head?_eq_head hfb
  refine ⟨{
      volume_pressure_flag :=
          ((List.insertionSort weeklyKpiLeKey volume_df).getLast hsvne).flag,
      terminal_congestion_loaded_flag := flag_for_load_type terminal_df "loaded",
      terminal_congestion_empty_flag := flag_for_load_type terminal_df "empty",
      outgate_stress_high_statuses :=
          if ((outgate_df.filter (fun r => r.flag == "HIGH")).map
              (fun r => r.status)).isEmpty then "NONE"
          else joinSep ", " ((outgate_df.filter
              (fun r => r.flag == "HIGH")).map (fun r => r.status)),
      berth_flag :=
          ((berth_df.filter (fun r => r.record_type == "summary")).head hfb).flag,
      extraction_ts_utc := ts,
      from_date := none,
      to_date := none }, ?_, ?_, ?_, ?_, ?_, ?_, ?_, ?_, ?_⟩
  · unfold build_health_summary
    rw [hlast, hhead]
  · refine ⟨(List.insertionSort weeklyKpiLeKey volume_df).getLast hsvne,
      ?_, ?_, rfl⟩
    · exact (List.perm_insertionSort weeklyKpiLeKey volume_df).mem_iff.mp
        (List.getLast_mem hsvne)
    · intro x hx
      exact sorted_rel_getLast
        (List.sorted_insertionSort weeklyKpiLeKey volume_df) hsvne x
        ((List.perm_insertionSort weeklyKpiLeKey volume_df).mem_iff.mpr hx)
  · exact (flag_for_load_type_spec terminal_df "loaded").1
  · exact (flag_for_load_type_spec terminal_df "loaded").2
  · exact (flag_for_load_type_spec terminal_df "empty").1
  · exact (flag_for_load_type_spec terminal_df "empty").2
  · rfl
  · refine ⟨(berth_df.filter (fun r => r.record_type == "summary")).head hfb,
      ?_, ?_, rfl⟩
    · exact (List.mem_filter.mp (List.head_mem hfb)).1
    · simpa using (List.mem_filter.mp (List.head_mem hfb)).2
  · rfl

/-- Concrete volume row used to witness C5. -/
def c5vrow : WeeklyKpiRow :=
  { week_start_date := 0
    inbound_full_containers := 1
    rolling_4w_avg_teu := 1
    volume_pressure_index := PVal.num 1
    flag := "NORMAL"
    extraction_ts_utc := 4
    from_date := none
    to_date := none }

/-- Concrete terminal row used to witness C5. -/
def c5trow : TerminalKpiRow :=
  { load_type := "Loaded"
    total_containers := 5
    congested_containers := 0
    congested_pct := 0
    flag := "NORMAL"
    extraction_ts_utc := 4
    from_date := none
    to_date := none }

/-- Concrete all-NORMAL outgate row used to witness C5. -/
def c5orow : OutgateKpiRow :=
  { status := "Full"
    total_containers := 5
    slow_containers := 0
    slow_pct := 0
    flag := "NORMAL"
    extraction_ts_utc := 4
    from_date := none
    to_date := none }

/-- Concrete berth summary row used to witness C5. -/
def c5brow : BerthKpiRow :=
  { record_type := "summary"
    vessel := none
    terminal := none
    time_at_berth_hours := none
    avg_time_at_berth_hours := PVal.num 1
    flag := "NORMAL"
    extraction_ts_utc := 4
    from_date := none
    to_date := none }

theorem C5_witness :
    ∃ row, build_health_summary [c5vrow] [c5trow] [c5orow] [c5brow] 4
        = Except.ok [row]
      ∧ (∃ r ∈ [c5vrow],
          (∀ x ∈ [c5vrow], x.week_start_date ≤ r.week_start_date)
          ∧ row.volume_pressure_flag = r.flag)
      ∧ ((∀ r ∈ [c5trow], pyLower r.load_type ≠ "loaded") →
          row.terminal_congestion_loaded_flag = "UNKNOWN")
      ∧ ((∃ r ∈ [c5trow], pyLower r.load_type = "loaded") →
          ∃ r ∈ [c5trow], pyLower r.load_type = "loaded"
            ∧ row.terminal_congestion_loaded_flag = r.flag)
      ∧ ((∀ r ∈ [c5trow], pyLower r.load_type ≠ "empty") →
          row.terminal_congestion_empty_flag = "UNKNOWN")
      ∧ ((∃ r ∈ [c5trow], pyLower r.load_type = "empty") →
          ∃ r ∈ [c5trow], pyLower r.load_type = "empty"
            ∧ row.terminal_congestion_empty_flag = r.flag)
      ∧ row.outgate_stress_high_statuses =
          (if (([c5orow].filter (fun r => r.flag == "HIGH")).map
              (fun r => r.status)).isEmpty then "NONE"
           else joinSep ", " (([c5orow].filter
              (fun r => r.flag == "HIGH")).map (fun r => r.status)))
      ∧ (∃ r ∈ [c5brow], r.record_type = "summary" ∧ row.berth_flag = r.flag)
      ∧ row.extraction_ts_utc = 4 :=
  C5_health_summary [c5vrow] [c5trow] [c5orow] [c5brow] 4
    (List.cons_ne_nil c5vrow []) ⟨c5brow, List.mem_singleton.mpr rfl, rfl⟩

/-- C2 amended.  A payload whose wrapper key holds the item list directly
(here the data key, present in the probe list of all four normalizers) and
the bare item list normalize identically, for every item list and every
external parser behaviour, in each of the four dataset normalizers. -/
theorem C2_flat_wrapper_equivalence (ext : PandasExt) (items : List Json) :
    parse_weekly_volumes ext (Json.obj [("data", Json.arr items)])
      = parse_weekly_volumes ext (Json.arr items)
    ∧ parse_terminal_containers ext (Json.obj [("data", Json.arr items)])
      = parse_terminal_containers ext (Json.arr items)
    ∧ parse_outgate_metrics ext (Json.obj [("data", Json.arr items)])
      = parse_outgate_metrics ext (Json.arr items)
    ∧ parse_berth_data ext (Json.obj [("data", Json.arr items)])
      = parse_berth_data ext (Json.arr items) :=
  ⟨rfl, rfl, rfl, rfl⟩

/-- External parsers that fail on every string; enough for payloads whose
field values are numeric. -/
def extZero : PandasExt :=
  { pdToDatetime := fun _ => none
    strToNum := fun _ => none }

/-- A well-formed weekly item record. -/
def c2item : Json :=
  Json.obj [("weekStartDate", Json.num 0), ("inboundFullContainers", Json.num 100)]

/-- The doubly nested payload shape of the round-trip claim: the data key
holds a mapping that holds the items list, not the list itself. -/
def c2nested : Json :=
  Json.obj [("data", Json.obj [("items", Json.arr [c2item])])]

/-- C2 counterexample.  On the doubly nested payload the weekly normalizer
raises ShapeError, while on the bare list of the same single item it
returns a one-row dataset, so the two shapes do not normalize
identically. -/
theorem C2_counterexample :
    parse_weekly_volumes extZero c2nested
      = Except.error (PyErr.shape
          (extractListMsg ["weeklyVolumesComparison", "data", "items"]))
    ∧ parse_weekly_volumes extZero (Json.arr [c2item])
      = Except.ok [{ week_start_date := 0, inbound_full_containers := 100 }] := by
  constructor
  · rfl
  · simp [parse_weekly_volumes, extract_list, processItems, weeklyItem,
      get_required_key, firstPresentKey, dictGet, parse_date,
      DateInput.ofJson, toNumeric, extZero, c2item, weeklyDateKeys,
      weeklyInboundKeys]

lemma processItems_prefix_error {α : Type} (f : Json → Except PyErr α)
    (pre : List Json) (x : Json) (post : List Json) (e : PyErr)
    (hpre : ∀ item ∈ pre, ∃ r, f item = Except.ok r)
    (hx : f x = Except.error e) :
    processItems f (pre ++ x :: post) = Except.error e := by
  induction pre with
  | nil => simp [processItems, hx]
  | cons a t ih =>
    obtain ⟨r, hr⟩ := hpre a (List.mem_cons_self a t)
    have ht : ∀ item ∈ t, ∃ r, f item = Except.ok r :=
      fun item hi => hpre item (List.mem_cons_of_mem a hi)
    simp [processItems, hr, ih ht]

/-- C4.  When an item has no containers alias present with a non-null
value while the fields processed ahead of it resolve, the terminal
normalizer fails with the ShapeError built from all four attempted aliases
(each alias appears in the message), it fails no matter what items follow
the offending one (they are never examined), and items ahead of it do not
appear in the error. -/
theorem C4_missing_required_key (ext : PandasExt) (pre post : List Json)
    (bad : List (String × Json))
    (hpre : ∀ item ∈ pre, ∃ r, terminalItem item = Except.ok r)
    (hload : ∃ s, firstPresentKey bad terminalLoadKeys = some (Json.str s))
    (hbucket : ∃ s, firstPresentKey bad bucketKeys = some (Json.str s))
    (hmissing : firstPresentKey bad containersKeys = none) :
    parse_terminal_containers ext (Json.arr (pre ++ Json.obj bad :: post))
      = Except.error (PyErr.shape (requiredKeysMsg containersKeys))
    ∧ (∀ k ∈ containersKeys, k.data <:+: (requiredKeysMsg containersKeys).data)
    ∧ ∀ (kvs : List (String × Json)) (keys : List String),
        firstPresentKey kvs keys = none →
        get_required_key (Json.obj kvs) keys
          = Except.error (PyErr.shape (requiredKeysMsg keys)) := by
  obtain ⟨ls, hls⟩ := hload
  obtain ⟨bs, hbs⟩ := hbucket
  have hbad : terminalItem (Json.obj bad)
      = Except.error (PyErr.shape (requiredKeysMsg containersKeys)) := by
    simp [terminalItem, get_required_key, hls, hbs, hmissing, pyStrip]
  refine ⟨?_, by decide, fun kvs keys hk => by simp [get_required_key, hk]⟩
  have hp := processItems_prefix_error terminalItem pre (Json.obj bad) post
    _ hpre hbad
  simp [parse_terminal_containers, extract_list, hp]

/-- A complete terminal item, processed before the offending one. -/
def c4good : Json :=
  Json.obj [("loadType", Json.str "Loaded"), ("bucket", Json.str "1-4 Days"),
    ("containers", Json.num 3)]

/-- A terminal item with load type and bucket but no containers alias. -/
def c4bad : List (String × Json) :=
  [("loadType", Json.str "Empty"), ("bucket", Json.str "5-8 Days")]

theorem C4_witness :
    parse_terminal_containers extZero
        (Json.arr [c4good, Json.obj c4bad, Json.num 7])
      = Except.error (PyErr.shape (requiredKeysMsg containersKeys))
    ∧ (∀ k ∈ containersKeys, k.data <:+: (requiredKeysMsg containersKeys).data)
    ∧ get_required_key (Json.obj c4bad) containersKeys
        = Except.error (PyErr.shape (requiredKeysMsg containersKeys)) := by
  have h := C4_missing_required_key extZero [c4good] [Json.num 7] c4bad
    (by
      intro item hi
      rw [List.mem_singleton] at hi
      subst hi
      exact ⟨_, rfl⟩)
    ⟨"Empty", rfl⟩ ⟨"5-8 Days", rfl⟩ rfl
  exact ⟨h.1, h.2.1, h.2.2 c4bad containersKeys rfl⟩

/-- C8 amended.  Date normalization accepts a datetime (taking only its
date part, so the result never carries a time of day), a numeric
epoch-seconds value (converted to its calendar day), and a string the
external date parser accepts; a value of any unrecognized type raises
ShapeError; but an unparseable string propagates the date parser error of
the pandas library, not ShapeError, because the string branch calls the
library without catching. -/
theorem C8_date_parsing_amended (pdToDatetime : String → Option PyDatetime) :
    (∀ d, parse_date pdToDatetime (DateInput.dt d) = Except.ok d.day)
    ∧ (∀ n, parse_date pdToDatetime (DateInput.intVal n)
        = Except.ok (Int.fdiv n 86400))
    ∧ (∀ q, parse_date pdToDatetime (DateInput.floatVal q)
        = Except.ok ⌊q / 86400⌋)
    ∧ (∀ s d, pdToDatetime s = some d →
        parse_date pdToDatetime (DateInput.strVal s) = Except.ok d.day)
    ∧ (∀ s, pdToDatetime s = none →
        parse_date pdToDatetime (DateInput.strVal s)
          = Except.error
              (PyErr.external "DateParseError: Unknown datetime string format"))
    ∧ parse_date pdToDatetime DateInput.other
        = Except.error (PyErr.shape "Unable to parse date value") := by
  refine ⟨fun d => rfl, fun n => rfl, fun q => rfl, fun s d h => ?_,
    fun s h => ?_, rfl⟩
  · simp [parse_date, h]
  · simp [parse_date, h]

/-- Concrete external date grammar accepting exactly one ISO string. -/
def w8pd : String → Option PyDatetime :=
  fun s => if s = "2024-01-01" then some ⟨19723, 0⟩ else none

/-- C8 counterexample.  On an unparseable string the date helper fails,
but not with ShapeError: the error is the external date parser error,
contradicting the claim that every unparseable input fails with
ShapeError. -/
theorem C8_counterexample :
    (parse_date w8pd (DateInput.strVal "garbage")).isOk = false
    ∧ isShapeErr (parse_date w8pd (DateInput.strVal "garbage")) = false
    ∧ parse_date w8pd (DateInput.strVal "garbage")
      = Except.error
          (PyErr.external "DateParseError: Unknown datetime string format") :=
  ⟨rfl, rfl, rfl⟩

theorem C8_witness :
    parse_date w8pd (DateInput.strVal "2024-01-01") = Except.ok 19723
    ∧ parse_date w8pd (DateInput.strVal "garbage")
      = Except.error
          (PyErr.external "DateParseError: Unknown datetime string format")
    ∧ parse_date w8pd DateInput.other
      = Except.error (PyErr.shape "Unable to parse date value") := by
  have h := C8_date_parsing_amended w8pd
  exact ⟨h.2.2.2.1 "2024-01-01" ⟨19723, 0⟩ rfl, h.2.2.2.2.1 "garbage" rfl,
    h.2.2.2.2.2⟩

lemma weekly_tags (weekly_df : List WeeklyRow) (ts : ℕ)
    (fd td : Option String) (hi lo : ℚ) :
    ∀ r ∈ build_weekly_volume_pressure weekly_df ts fd td hi lo,
      r.extraction_ts_utc = ts ∧ r.from_date = tagValue fd
      ∧ r.to_date = tagValue td := by
  intro r hr
  simp only [build_weekly_volume_pressure, List.mem_map, List.mem_range] at hr
  obtain ⟨i, hi2, rfl⟩ := hr
  exact ⟨rfl, rfl, rfl⟩

lemma terminal_tags {terminal_df : List TerminalRow} {ts : ℕ}
    {fd td : Option String} {cb : List String} {lh eh : ℚ}
    {tbl : List TerminalKpiRow}
    (hok : build_terminal_congestion terminal_df ts fd td cb lh eh
      = Except.ok tbl) :
    ∀ r ∈ tbl, r.extraction_ts_utc = ts ∧ r.from_date = tagValue fd
      ∧ r.to_date = tagValue td := by
  intro r hr
  obtain ⟨lt, rfl⟩ := mem_terminal_ok hok hr
  exact ⟨rfl, rfl, rfl⟩

lemma outgate_tags {outgate_df : List OutgateRow} {ts : ℕ}
    {fd td : Option String} {sb : List String} {sh : ℚ}
    {tbl : List OutgateKpiRow}
    (hok : build_outgate_stress_by_status outgate_df ts fd td sb sh
      = Except.ok tbl) :
    ∀ r ∈ tbl, r.extraction_ts_utc = ts ∧ r.from_date = tagValue fd
      ∧ r.to_date = tagValue td := by
  intro r hr
  obtain ⟨st, rfl⟩ := mem_outgate_ok hok hr
  exact ⟨rfl, rfl, rfl⟩

lemma berth_tags (berth_df : List BerthRow) (ts : ℕ)
    (fd td : Option String) (bh : ℚ) (tn : ℕ) :
    ∀ r ∈ build_berth_snapshot berth_df ts fd td bh tn,
      r.extraction_ts_utc = ts ∧ r.from_date = tagValue fd
      ∧ r.to_date = tagValue td := by
  intro r hr
  simp only [build_berth_snapshot, List.mem_cons, List.mem_map] at hr
  rcases hr with rfl | ⟨x, hx, rfl⟩
  · exact ⟨rfl, rfl, rfl⟩
  · exact ⟨rfl, rfl, rfl⟩

lemma health_tags {volume_df : List WeeklyKpiRow}
    {terminal_df : List TerminalKpiRow} {outgate_df : List OutgateKpiRow}
    {berth_df : List BerthKpiRow} {ts : ℕ} {tbl : List HealthRow}
    (hok : build_health_summary volume_df terminal_df outgate_df berth_df ts
      = Except.ok tbl) :
    ∀ r ∈ tbl, r.extraction_ts_utc = ts ∧ r.from_date = none
      ∧ r.to_date = none := by
  intro r hr
  unfold build_health_summary at hok
  split at hok
  · cases hok
  · split at hok
    · cases hok
    · cases hok
      rw [List.mem_singleton] at hr
      subst hr
      exact ⟨rfl, rfl, rfl⟩

lemma run_pipeline_ok {ext : PandasExt} {s : PipelineSettings} {ts : ℕ}
    {wp tp op bp : Json} {t : PipelineTables}
    (hrun : run_pipeline ext s ts wp tp op bp = Except.ok t) :
    ∃ weekly_df terminal_df outgate_df berth_df,
      t.kpi_weekly_volume_pressure
        = build_weekly_volume_pressure weekly_df ts s.from_date s.to_date
            s.volume_pressure_high s.volume_pressure_low
      ∧ build_terminal_congestion terminal_df ts s.from_date s.to_date
            s.congested_buckets s.terminal_loaded_high s.terminal_empty_high
          = Except.ok t.kpi_terminal_congestion
      ∧ build_outgate_stress_by_status outgate_df ts s.from_date s.to_date
            s.slow_outgate_buckets s.outgate_slow_high
          = Except.ok t.kpi_outgate_stress_by_status
      ∧ t.kpi_berth_snapshot
          = build_berth_snapshot berth_df ts s.from_date s.to_date
              s.berth_high_hours s.berth_top_n
      ∧ build_health_summary t.kpi_weekly_volume_pressure
            t.kpi_terminal_congestion t.kpi_outgate_stress_by_status
            t.kpi_berth_snapshot ts
          = Except.ok t.kpi_health_summary := by
  unfold run_pipeline at hrun
  split at hrun
  · cases hrun
  next weekly_df hw =>
    split at hrun
    · cases hrun
    next terminal_df ht =>
      split at hrun
      · cases hrun
      next outgate_df ho =>
        split at hrun
        · cases hrun
        next berth_df hb =>
          split at hrun
          · cases hrun
          next kpi_terminal hT =>
            split at hrun
            · cases hrun
            next kpi_outgate hO =>
              dsimp only at hrun
              split at hrun
              · cases hrun
              next kpi_health hH =>
                cases hrun
                exact ⟨weekly_df, terminal_df, outgate_df, berth_df, rfl,
                  hT, hO, rfl, hH⟩

/-- C9 amended.  In every successful pipeline run the five derived tables
carry the same extraction_ts_utc value; the four per-dataset KPI tables
carry the configured from_date and to_date echoed verbatim into every row
whenever those settings are truthy; but the health summary table never
carries the date-range columns, only the shared timestamp. -/
theorem C9_run_tags_amended (ext : PandasExt) (s : PipelineSettings) (ts : ℕ)
    (wp tp op bp : Json) (t : PipelineTables)
    (hrun : run_pipeline ext s ts wp tp op bp = Except.ok t) :
    (∀ r ∈ t.kpi_weekly_volume_pressure, r.extraction_ts_utc = ts
      ∧ r.from_date = tagValue s.from_date ∧ r.to_date = tagValue s.to_date)
    ∧ (∀ r ∈ t.kpi_terminal_congestion, r.extraction_ts_utc = ts
      ∧ r.from_date = tagValue s.from_date ∧ r.to_date = tagValue s.to_date)
    ∧ (∀ r ∈ t.kpi_outgate_stress_by_status, r.extraction_ts_utc = ts
      ∧ r.from_date = tagValue s.from_date ∧ r.to_date = tagValue s.to_date)
    ∧ (∀ r ∈ t.kpi_berth_snapshot, r.extraction_ts_utc = ts
      ∧ r.from_date = tagValue s.from_date ∧ r.to_date = tagValue s.to_date)
    ∧ (∀ r ∈ t.kpi_health_summary, r.extraction_ts_utc = ts
      ∧ r.from_date = none ∧ r.to_date = none)
    ∧ (pyTruthy s.from_date = true → tagValue s.from_date = s.from_date)
    ∧ (pyTruthy s.to_date = true → tagValue s.to_date = s.to_date) := by
  obtain ⟨weekly_df, terminal_df, outgate_df, berth_df, hW, hT, hO, hB, hH⟩ :=
    run_pipeline_ok hrun
  refine ⟨?_, terminal_tags hT, outgate_tags hO, ?_, health_tags hH,
    fun h => by simp [tagValue, h], fun h => by simp [tagValue, h]⟩
  · rw [hW]
    exact weekly_tags weekly_df ts s.from_date s.to_date
      s.volume_pressure_high s.volume_pressure_low
  · rw [hB]
    exact berth_tags berth_df ts s.from_date s.to_date
      s.berth_high_hours s.berth_top_n

/-- Concrete pipeline configuration with a truthy from_date. -/
def c9cfg : PipelineSettings :=
  { from_date := some "2024-01-01"
    to_date := none
    congested_buckets := ["13+ Days"]
    slow_outgate_buckets := ["13+ Days"]
    volume_pressure_high := 2
    volume_pressure_low := 0
    terminal_loaded_high := 2
    terminal_empty_high := 2
    outgate_slow_high := 1
    berth_high_hours := 24
    berth_top_n := 5 }

/-- Concrete weekly payload of the C9 run. -/
def c9wp : Json := Json.arr [c2item]

/-- Concrete terminal payload of the C9 run. -/
def c9tp : Json :=
  Json.arr [Json.obj [("loadType", Json.str "Loaded"),
    ("bucket", Json.str "1-4 Days"), ("containers", Json.num 10)]]

/-- Concrete outgate payload of the C9 run. -/
def c9op : Json :=
  Json.arr [Json.obj [("status", Json.str "Full"),
    ("bucket", Json.str "1-4 Days"), ("containers", Json.num 5)]]

/-- Concrete berth payload of the C9 run. -/
def c9bp : Json :=
  Json.arr [Json.obj [("vessel", Json.str "Vessel A"),
    ("timeAtBerthHours", Json.num 10)]]

lemma c9parseW : parse_weekly_volumes extZero c9wp
    = Except.ok [{ week_start_date := 0, inbound_full_containers := 100 }] := by
  simp [parse_weekly_volumes, extract_list, processItems, weeklyItem,
    get_required_key, firstPresentKey, dictGet, parse_date, DateInput.ofJson,
    toNumeric, extZero, c9wp, c2item, weeklyDateKeys, weeklyInboundKeys]

lemma c9parseT : parse_terminal_containers extZero c9tp
    = Except.ok [{ load_type := "Loaded", bucket := "1-4 Days", containers := 10 }] := by
  simp [parse_terminal_containers, extract_list, processItems, terminalItem,
    get_required_key, firstPresentKey, dictGet, pyStrip, toNumeric, extZero,
    c9tp, terminalLoadKeys, bucketKeys, containersKeys,
    show pyStripStr "Loaded" = "Loaded" from by decide,
    show pyStripStr "1-4 Days" = "1-4 Days" from by decide]

lemma c9parseO : parse_outgate_metrics extZero c9op
    = Except.ok [{ status := "Full", bucket := "1-4 Days", containers := 5 }] := by
  simp [parse_outgate_metrics, extract_list, processItems, outgateItem,
    get_required_key, firstPresentKey, dictGet, pyStrip, toNumeric, extZero,
    c9op, outgateStatusKeys, bucketKeys, containersKeys,
    show pyStripStr "Full" = "Full" from by decide,
    show pyStripStr "1-4 Days" = "1-4 Days" from by decide]

lemma c9parseB : parse_berth_data extZero c9bp
    = Except.ok [{ vessel := "Vessel A", time_at_berth_hours := 10, terminal := none }] := by
  simp [parse_berth_data, extract_list, processItems, berthItem,
    get_required_key, firstPresentKey, dictGet, pyStrip, toNumeric, extZero,
    c9bp, vesselKeys, hoursKeys, itemGet, jsonTruthy,
    show pyStripStr "Vessel A" = "Vessel A" from by decide]

/-- The weekly KPI row of the concrete C9 run. -/
def c9weeklyRow : WeeklyKpiRow :=
  { week_start_date := 0
    inbound_full_containers := 100
    rolling_4w_avg_teu := 100
    volume_pressure_index := PVal.num 1
    flag := "NORMAL"
    extraction_ts_utc := 7
    from_date := some "2024-01-01"
    to_date := none }

/-- The terminal KPI row of the concrete C9 run. -/
def c9terminalRow : TerminalKpiRow :=
  { load_type := "Loaded"
    total_containers := 10
    congested_containers := 0
    congested_pct := 0
    flag := "NORMAL"
    extraction_ts_utc := 7
    from_date := some "2024-01-01"
    to_date := none }

/-- The outgate KPI row of the concrete C9 run. -/
def c9outgateRow : OutgateKpiRow :=
  { status := "Full"
    total_containers := 5
    slow_containers := 0
    slow_pct := 0
    flag := "NORMAL"
    extraction_ts_utc := 7
    from_date := some "2024-01-01"
    to_date := none }

/-- The berth summary row of the concrete C9 run. -/
def c9berthSummary : BerthKpiRow :=
  { record_type := "summary"
    vessel := none
    terminal := none
    time_at_berth_hours := none
    avg_time_at_berth_hours := PVal.num 10
    flag := "NORMAL"
    extraction_ts_utc := 7
    from_date := some "2024-01-01"
    to_date := none }

/-- The berth vessel row of the concrete C9 run. -/
def c9berthVessel : BerthKpiRow :=
  { record_type := "vessel"
    vessel := some "Vessel A"
    terminal := none
    time_at_berth_hours := some 10
    avg_time_at_berth_hours := PVal.num 10
    flag := "NORMAL"
    extraction_ts_utc := 7
    from_date := some "2024-01-01"
    to_date := none }

/-- The health summary row of the concrete C9 run; it has no date-range
columns although from_date is configured. -/
def c9healthRow : HealthRow :=
  { volume_pressure_flag := "NORMAL"
    terminal_congestion_loaded_flag := "NORMAL"
    terminal_congestion_empty_flag := "UNKNOWN"
    outgate_stress_high_statuses := "NONE"
    berth_flag := "NORMAL"
    extraction_ts_utc := 7
    from_date := none
    to_date := none }

/-- The five tables of the concrete C9 run. -/
def c9tables : PipelineTables :=
  { kpi_weekly_volume_pressure := [c9weeklyRow]
    kpi_terminal_congestion := [c9terminalRow]
    kpi_outgate_stress_by_status := [c9outgateRow]
    kpi_berth_snapshot := [c9berthSummary, c9berthVessel]
    kpi_health_summary := [c9healthRow] }

lemma c9buildW :
    build_weekly_volume_pressure
        [{ week_start_date := 0, inbound_full_containers := 100 }] 7
        (some "2024-01-01") none 2 0 = [c9weeklyRow] := by
  have h1 : List.insertionSort weeklyRowLeKey
      [({ week_start_date := 0, inbound_full_containers := 100 } : WeeklyRow)]
      = [{ week_start_date := 0, inbound_full_containers := 100 }] := by
    simp [List.insertionSort]
  have h2 : listMean [(100 : ℚ)] = 100 := by
    simp [listMean]
  simp [build_weekly_volume_pressure, h1, weeklyKpiAt, rollingWindow, h2,
    PVal.div, weeklyFlag, PVal.le, PVal.ge, tagValue, pyTruthy, c9weeklyRow,
    List.range_succ]

lemma c9buildT :
    build_terminal_congestion
        [{ load_type := "Loaded", bucket := "1-4 Days", containers := 10 }] 7
        (some "2024-01-01") none ["13+ Days"] 2 2 = Except.ok [c9terminalRow] := by
  have hg : groupKeys ["Loaded"] = ["Loaded"] := by
    decide
  simp [build_terminal_congestion, hg, terminalGroupRow, terminalGroupFlag,
    tagValue, pyTruthy, c9terminalRow,
    show pyLower "Loaded" = "loaded" from by decide,
    show pyLower "Loaded" ≠ "empty" from by decide]

lemma c9buildO :
    build_outgate_stress_by_status
        [{ status := "Full", bucket := "1-4 Days", containers := 5 }] 7
        (some "2024-01-01") none ["13+ Days"] 1 = Except.ok [c9outgateRow] := by
  have hg : groupKeys ["Full"] = ["Full"] := by
    decide
  simp [build_outgate_stress_by_status, hg, outgateGroupRow, tagValue,
    pyTruthy, c9outgateRow]

lemma c9buildB :
    build_berth_snapshot
        [{ vessel := "Vessel A", time_at_berth_hours := 10, terminal := none }] 7
        (some "2024-01-01") none 24 5 = [c9berthSummary, c9berthVessel] := by
  have h1 : List.insertionSort berthGeKey
      [({ vessel := "Vessel A", time_at_berth_hours := 10,
          terminal := none } : BerthRow)]
      = [{ vessel := "Vessel A", time_at_berth_hours := 10, terminal := none }] := by
    simp [List.insertionSort]
  have h2 : listMean [(10 : ℚ)] = 10 := by
    simp [listMean]
  simp [build_berth_snapshot, h1, h2, PVal.ge, tagValue, pyTruthy,
    c9berthSummary, c9berthVessel]
  norm_num

lemma c9buildH :
    build_health_summary [c9weeklyRow] [c9terminalRow] [c9outgateRow]
        [c9berthSummary, c9berthVessel] 7 = Except.ok [c9healthRow] := by
  have h1 : List.insertionSort weeklyKpiLeKey [c9weeklyRow] = [c9weeklyRow] := by
    simp [List.insertionSort]
  simp [build_health_summary, h1, flag_for_load_type, c9weeklyRow,
    c9terminalRow, c9outgateRow, c9berthSummary, c9berthVessel, c9healthRow,
    show pyLower "Loaded" = "loaded" from by decide,
    show pyLower "Loaded" ≠ "empty" from by decide]

lemma c9run : run_pipeline extZero c9cfg 7 c9wp c9tp c9op c9bp
    = Except.ok c9tables := by
  simp [run_pipeline, c9parseW, c9parseT, c9parseO, c9parseB, c9cfg,
    c9buildW, c9buildT, c9buildO, c9buildB, c9buildH, c9tables]

/-- C9 counterexample.  A successful run with from_date configured (truthy)
produces a health summary table whose single row carries no from_date and
no to_date column, so not every derived KPI table echoes the configured
date range; the weekly table of the same run does echo it. -/
theorem C9_counterexample :
    run_pipeline extZero c9cfg 7 c9wp c9tp c9op c9bp = Except.ok c9tables
    ∧ pyTruthy c9cfg.from_date = true
    ∧ c9tables.kpi_health_summary = [c9healthRow]
    ∧ c9healthRow.from_date = none
    ∧ c9healthRow.to_date = none
    ∧ c9healthRow.extraction_ts_utc = 7
    ∧ c9tables.kpi_weekly_volume_pressure = [c9weeklyRow]
    ∧ c9weeklyRow.from_date = c9cfg.from_date :=
  ⟨c9run, rfl, rfl, rfl, rfl, rfl, rfl, rfl⟩

theorem C9_witness :
    (c9weeklyRow.extraction_ts_utc = 7
      ∧ c9weeklyRow.from_date = tagValue c9cfg.from_date
      ∧ c9weeklyRow.to_date = tagValue c9cfg.to_date)
    ∧ (c9terminalRow.extraction_ts_utc = 7
      ∧ c9terminalRow.from_date = tagValue c9cfg.from_date
      ∧ c9terminalRow.to_date = tagValue c9cfg.to_date)
    ∧ (c9outgateRow.extraction_ts_utc = 7
      ∧ c9outgateRow.from_date = tagValue c9cfg.from_date
      ∧ c9outgateRow.to_date = tagValue c9cfg.to_date)
    ∧ (c9berthSummary.extraction_ts_utc = 7
      ∧ c9berthSummary.from_date = tagValue c9cfg.from_date
      ∧ c9berthSummary.to_date = tagValue c9cfg.to_date)
    ∧ (c9healthRow.extraction_ts_utc = 7 ∧ c9healthRow.from_date = none
      ∧ c9healthRow.to_date = none)
    ∧ tagValue c9cfg.from_date = c9cfg.from_date := by
  have h := C9_run_tags_amended extZero c9cfg 7 c9wp c9tp c9op c9bp c9tables
    c9run
  refine ⟨h.1 c9weeklyRow (List.mem_singleton.mpr rfl),
    h.2.1 c9terminalRow (List.mem_singleton.mpr rfl),
    h.2.2.1 c9outgateRow (List.mem_singleton.mpr rfl),
    h.2.2.2.1 c9berthSummary (List.mem_cons_self _ _),
    h.2.2.2.2.1 c9healthRow (List.mem_singleton.mpr rfl),
    h.2.2.2.2.2.1 rfl⟩
